import Mathlib

/-!
Verification of the `reloader` media-resolution service.

The development shallowly embeds the two request handlers of the repository
(`src/api/index.js`, the resolve-media endpoint, and `src/api/filesize.js`,
the size-probe endpoint).  JavaScript values that may be `null`/`undefined`
or empty are modelled with `Option`; JS truthiness (`""` and `0` falsy) is
made explicit through dedicated helpers.  Network effects are modelled by
passing each outbound call's observable outcome as an explicit argument, so
every function is a pure, executable Lean definition mirroring the source
control flow line by line.
-/

namespace Reloader

/-- JavaScript truthiness of a string-valued expression: `none` models
`null`/`undefined`, and `some ""` is falsy like the empty string. -/
def strTruthy : Option String → Bool
  | none => false
  | some s => s ≠ ""

/-- JavaScript truthiness of a number-valued expression: `0` is falsy. -/
def natTruthy : Option Nat → Bool
  | none => false
  | some n => n ≠ 0

/-- JS `a || b || null` on string values: first truthy operand, with a falsy
overall outcome normalised to `none` (the source only ever tests the result
for truthiness or stores it, so the normalisation is observation-equal). -/
def jsOrS (a b : Option String) : Option String :=
  if strTruthy a then a else if strTruthy b then b else none

/-- JS `a || b || null` on numeric values (`0` falsy). -/
def jsOrN (a b : Option Nat) : Option Nat :=
  if natTruthy a then a else if natTruthy b then b else none

/-- JS `a || dflt` where `dflt` is a string literal. -/
def strOrDefault (a : Option String) (dflt : String) : String :=
  match a with
  | some s => if s ≠ "" then s else dflt
  | none => dflt

/-- One entry of the `variants` array built by `providerTikwm`
(`src/api/index.js` lines 143-178). -/
structure MediaVariant where
  type : String
  name : String
  url : String
  size_bytes : Option Nat
deriving DecidableEq, Repr

/-- The JSON object shape returned by providers and by the resolve-media
handler.  A field whose value is `none` is absent (or `null`) in the JS
object; success results set `status = some "tunnel"`, failure results set
`status = some "error"` and carry `text`. -/
structure JsResult where
  status : Option String
  text : Option String
  url : Option String
  filename : Option String
  title : Option String
  author : Option String
  thumb : Option String
  variants : Option (List MediaVariant)
deriving DecidableEq, Repr

/-- The failure envelope `{ status: 'error', text: msg }`. -/
def errorResult (msg : String) : JsResult :=
  ⟨some "error", some msg, none, none, none, none, none, none⟩

/- ===== Platform detection (`detectPlatform`, index.js lines 235-242) ===== -/

/-- ASCII lower-casing of one character, modelling the `/i` regex flag on the
ASCII-only domain patterns of `detectPlatform`. -/
def lowerChar (c : Char) : Char :=
  if 'A' ≤ c && c ≤ 'Z' then Char.ofNat (c.toNat + 32) else c

/-- Does the character list start with the given pattern? -/
def charStartsWith : List Char → List Char → Bool
  | [], _ => true
  | _ :: _, [] => false
  | p :: ps, c :: cs => p == c && charStartsWith ps cs

/-- Does the pattern occur as a contiguous run inside the character list? -/
def charHasSub (pat : List Char) : List Char → Bool
  | [] => charStartsWith pat []
  | c :: cs => charStartsWith pat (c :: cs) || charHasSub pat cs

/-- Case-insensitive substring test: the JS regexes of `detectPlatform` are
plain literals (with `youtu\.?be` expanded to its two alternatives), so
`/pat/i.test(url)` is containment of `pat` in the lower-cased `url`. -/
def lowerContains (url pat : String) : Bool :=
  charHasSub pat.toList (url.toList.map lowerChar)

/-- `detectPlatform` (index.js lines 235-242): first matching pattern in
source order, else `"unknown"`. -/
def detectPlatform (url : String) : String :=
  if lowerContains url "tiktok.com" then "tiktok"
  else if lowerContains url "youtu.be" || lowerContains url "youtube" then "youtube"
  else if lowerContains url "instagram.com" then "instagram"
  else if lowerContains url "twitter.com" || lowerContains url "x.com" then "twitter"
  else if lowerContains url "facebook.com" || lowerContains url "fb.watch" then "facebook"
  else "unknown"

/-- The spec's description of platform detection: an ordered rule table
(pattern alternatives, platform name), scanned for the first rule with a
matching pattern; no rule matching yields `"unknown"`.  Stated from the
spec's words for comparison against `detectPlatform`. -/
def platformRules : List (List String × String) :=
  [(["tiktok.com"], "tiktok"),
   (["youtu.be", "youtube"], "youtube"),
   (["instagram.com"], "instagram"),
   (["twitter.com", "x.com"], "twitter"),
   (["facebook.com", "fb.watch"], "facebook")]

/-- Spec-side platform detector (first matching rule in priority order). -/
def detectPlatformSpec (url : String) : String :=
  match platformRules.find? (fun rule => rule.1.any (fun pat => lowerContains url pat)) with
  | some rule => rule.2
  | none => "unknown"

/- ===== Timed fetch utility (`fetchUrl`, index.js lines 244-268) ===== -/

/-- Observable outcome of one underlying `fetch` + `response.text()` round
trip: either the body text, or a raised error (network failure or the
timeout-triggered `AbortError`). -/
inductive FetchOutcome where
  | success (body : String)
  | failure (err : String)
deriving DecidableEq, Repr

/-- The body of `fetchUrl`'s `try` block, as an exception-transparent
computation: `.error` is a raised JS exception. -/
def fetchAttempt : FetchOutcome → Except String String
  | .success body => .ok body
  | .failure err => .error err

/-- `fetchUrl` (index.js lines 244-268): the whole attempt is wrapped in
`try { ... } catch (e) { return null; }`, so the caller sees the body text
on success and `null` on any raised error. -/
def fetchUrl (o : FetchOutcome) : Option String :=
  match fetchAttempt o with
  | .ok body => some body
  | .error _ => none

/- ===== TikWM provider (`providerTikwm`, index.js lines 103-194) ===== -/

/-- The `music_info` sub-object of a TikWM payload (optional chaining
`video.music_info?.size` in the source). -/
structure MusicInfo where
  size : Option Nat
deriving DecidableEq, Repr

/-- The `data` object of a parsed TikWM payload, with exactly the fields the
source reads.  `author_nickname` collapses `(video.author && video.author.nickname)`:
`none` when `author` is absent or `nickname` is absent. -/
structure TikwmVideo where
  hdplay : Option String
  play : Option String
  music : Option String
  wmplay : Option String
  hd_size : Option Nat
  size : Option Nat
  wm_size : Option Nat
  music_info : Option MusicInfo
  id : Option String
  cover : Option String
  origin_cover : Option String
  title : Option String
  author_nickname : Option String
deriving DecidableEq, Repr

/-- A parsed TikWM response body.  `code = none` models an absent `code`
field (`data.code === undefined`); `data = none` an absent `data` object. -/
structure TikwmPayload where
  code : Option Int
  msg : Option String
  data : Option TikwmVideo
deriving DecidableEq, Repr

/-- The GET-retry condition of `providerTikwm` (index.js line 124):
`!data || (data.code !== undefined && data.code !== 0)` where `data` is the
parse of the POST attempt (`none` when the POST response was absent or not
parseable JSON). -/
def tikwmRetry (post : Option TikwmPayload) : Bool :=
  match post with
  | none => true
  | some d =>
    match d.code with
    | none => false
    | some c => c ≠ 0

/-- The payload `providerTikwm` holds after the optional GET retry
(index.js lines 124-128): on retry, a successful parse of the GET response
overwrites `data`, while a failed parse leaves the previous value in place. -/
def tikwmData (post tikGet : Option TikwmPayload) : Option TikwmPayload :=
  if tikwmRetry post then
    match tikGet with
    | some d => some d
    | none => post
  else post

/-- One conditional `variants.push` block of `providerTikwm`: the entry is
pushed exactly when the slot's URL resolved truthy. -/
def optVariant (o : Option String) (t nm : String) (sz : Option Nat) :
    List MediaVariant :=
  match o with
  | some u => [⟨t, nm, u, sz⟩]
  | none => []

/-- The four conditional `variants.push` blocks of `providerTikwm`
(index.js lines 143-178), over the already-resolved URL of each slot
(`none` when the slot's URL fallback chain came out falsy). -/
def buildVariants (hdUrl sdUrl audioUrl wmUrl : Option String)
    (hdSize sdSize audioSize wmSize : Option Nat) : List MediaVariant :=
  optVariant hdUrl "video-hd" "HD NO WATERMARK (MP4)" hdSize ++
  optVariant sdUrl "video-sd" "NO WATERMARK (MP4)" sdSize ++
  optVariant audioUrl "audio" "MP3 AUDIO" audioSize ++
  optVariant wmUrl "video-watermark" "WITH WATERMARK (MP4)" wmSize

/-- The `variants` array built by `providerTikwm` (index.js lines 136-178):
HD, SD, audio and watermark entries, each pushed only when its URL resolved
truthy, with the source's per-slot URL and size fallback chains
(`hdplay || play`, `play || hdplay`, `music || hdUrl`, `wmplay`). -/
def tikwmVariants (v : TikwmVideo) : List MediaVariant :=
  buildVariants
    (jsOrS v.hdplay v.play)
    (jsOrS v.play v.hdplay)
    (jsOrS (jsOrS v.music none) (jsOrS v.hdplay v.play))
    (jsOrS v.wmplay none)
    (jsOrN v.hd_size v.size)
    (jsOrN v.size v.hd_size)
    (jsOrN (match v.music_info with | some mi => mi.size | none => none) none)
    (jsOrN v.wm_size none)

/-- `providerTikwm` (index.js lines 103-194).  The two network round trips
are abstracted by their parse results (`post`, `tikGet`: `none` when the
response was missing or not parseable JSON).  The codomain is
`Except String (Option JsResult)`: `.error` models a JS exception escaping
the adapter (the source dereferences `data.data` without a guard, so a
payload with `code = 0` but no `data` object raises a `TypeError` that the
chain's `catch` must absorb). -/
def providerTikwm (platform : String) (post tikGet : Option TikwmPayload) :
    Except String (Option JsResult) :=
  if platform ≠ "tiktok" then .ok none
  else
    match tikwmData post tikGet with
    | none => .ok (some (errorResult "TikWM no response"))
    | some d =>
      if d.code ≠ some 0 then
        .ok (some (errorResult ("TikWM: " ++ strOrDefault d.msg "Unknown error")))
      else
        match d.data with
        | none => .error "Cannot read properties of undefined"
        | some v =>
          let hdUrl := jsOrS v.hdplay v.play
          let sdUrl := jsOrS v.play v.hdplay
          let musicUrl := jsOrS v.music none
          let wmUrl := jsOrS v.wmplay none
          let mainUrl := jsOrS hdUrl (jsOrS sdUrl (jsOrS wmUrl musicUrl))
          match mainUrl with
          | some m =>
            .ok (some ⟨some "tunnel", none, some m,
              some ("tiktok_" ++ strOrDefault v.id "video" ++ ".mp4"),
              some (strOrDefault v.title "TikTok Video"),
              some (strOrDefault v.author_nickname "TikTok User"),
              jsOrS v.cover v.origin_cover,
              some (tikwmVariants v)⟩)
          | none => .ok (some (errorResult "Video URL not found in TikWM"))

/- ===== Snaptik provider (`providerSnaptik`, index.js lines 196-226) ===== -/

/-- A parsed Snaptik (tik.fail) payload, with the fields the source reads. -/
structure SnaptikPayload where
  status : Option String
  video : Option String
  nwm_video_url : Option String
  desc : Option String
deriving DecidableEq, Repr

/-- `providerSnaptik` (index.js lines 196-226).  `resp = none` models a
`null` from `fetchUrl`; `resp = some none` a body that `JSON.parse` rejects
(or parses to a falsy value, which the `!data` guard sends down the same
decline path); `resp = some (some d)` a parsed object. -/
def providerSnaptik (platform : String) (resp : Option (Option SnaptikPayload)) :
    Option JsResult :=
  if platform ≠ "tiktok" then none
  else
    match resp with
    | none => none
    | some none => none
    | some (some d) =>
      if d.status ≠ some "success" then none
      else
        some ⟨some "tunnel", none,
          some (strOrDefault d.video (strOrDefault d.nwm_video_url "")),
          some "tiktok_snaptik.mp4",
          some (strOrDefault d.desc "TikTok Video"),
          none, none, none⟩

/- ===== Provider chain (index.js lines 52-89) ===== -/

/-- What one provider invocation looked like from the loop's point of view:
it either raised a JS exception with a message, or returned a value
(`none` for the JS `null` decline, `some r` for a result object). -/
inductive ProviderOutcome where
  | throws (msg : String)
  | returns (r : Option JsResult)
deriving DecidableEq, Repr

/-- The acceptance test of the loop (index.js line 63):
`result && result.status && result.status !== 'error'`. -/
def statusAccepted (r : JsResult) : Bool :=
  match r.status with
  | none => false
  | some s => s ≠ "" && s ≠ "error"

/-- The loop's mutable state: `finalResult`, `lastError`, the `debugLog`,
plus the list of providers that were actually invoked (each invocation is
witnessed in the source by the `Trying provider:` log push). -/
structure ChainState where
  finalResult : Option JsResult
  lastError : String
  log : List String
  invoked : List String
deriving DecidableEq, Repr

/-- One iteration of the `for (const provider of providers)` loop
(index.js lines 56-77), over a named provider outcome.  A set `finalResult`
short-circuits every later iteration (`if (finalResult) break`, and the
`break` on success). -/
def chainStep (s : ChainState) (p : String × ProviderOutcome) : ChainState :=
  match s.finalResult with
  | some _ => s
  | none =>
    let log1 := s.log ++ ["Trying provider: " ++ p.1]
    let inv1 := s.invoked ++ [p.1]
    match p.2 with
    | .throws m => ⟨none, m, log1 ++ ["Exception " ++ p.1 ++ ": " ++ m], inv1⟩
    | .returns none => ⟨none, s.lastError, log1, inv1⟩
    | .returns (some r) =>
      if statusAccepted r then
        ⟨some r, s.lastError, log1 ++ ["Success with " ++ p.1], inv1⟩
      else
        match r.text with
        | some t =>
          if t ≠ "" then
            ⟨none, t, log1 ++ ["Failed " ++ p.1 ++ ": " ++ t], inv1⟩
          else ⟨none, s.lastError, log1, inv1⟩
        | none => ⟨none, s.lastError, log1, inv1⟩

/-- Running the whole provider loop from the initial state
(`finalResult = null`, `lastError = ''`). -/
def runChain (ps : List (String × ProviderOutcome)) : ChainState :=
  ps.foldl chainStep ⟨none, "", [], []⟩

/-- The response payload built after the loop (index.js lines 79-89):
the accepted result if any, else the failure envelope
`Gagal memproses link. ${lastError || 'Server sibuk atau timeout'}.`. -/
def chainResponse (ps : List (String × ProviderOutcome)) : JsResult :=
  let s := runChain ps
  match s.finalResult with
  | some r => r
  | none =>
    errorResult ("Gagal memproses link. " ++
      (if s.lastError ≠ "" then s.lastError else "Server sibuk atau timeout") ++ ".")

/-- The error message one outcome records into `lastError`, if any: a thrown
exception records its message (index.js line 74); a returned result records
its `text` when the result was not accepted and `text` is truthy
(index.js lines 69-72); everything else records nothing. -/
def recordedError (o : ProviderOutcome) : Option String :=
  match o with
  | .throws m => some m
  | .returns none => none
  | .returns (some r) =>
    if statusAccepted r then none
    else
      match r.text with
      | some t => if t ≠ "" then some t else none
      | none => none

/-- The most recently recorded provider error message over a whole run. -/
def lastRecordedError (ps : List (String × ProviderOutcome)) : Option String :=
  (ps.filterMap (fun p => recordedError p.2)).getLast?

/- ===== Resolve-media handler (index.js lines 4-99) ===== -/

/-- What happened inside the handler's `try` block on a POST request, after
CORS/method dispatch: the parsed body had no usable `url` (including the
malformed-JSON-string case, index.js lines 31-42); or the provider loop ran
with the given named outcomes; or an unexpected exception with the given
message reached the global `catch` (index.js line 91). -/
inductive PostOutcome where
  | missingUrl
  | chain (ps : List (String × ProviderOutcome))
  | threw (msg : String)
deriving DecidableEq, Repr

/-- A response body of the resolve-media endpoint: the empty OPTIONS body,
the GET health-check object, or a `JsResult`-shaped JSON object. -/
inductive RespBody where
  | empty
  | health
  | json (r : JsResult)
deriving DecidableEq, Repr

/-- Does the body carry `status: 'error'` together with a truthy `text`? -/
def errorBody : RespBody → Bool
  | .json r =>
    (r.status == some "error") &&
      (match r.text with
       | some t => t ≠ ""
       | none => false)
  | _ => false

/-- The resolve-media handler (index.js lines 4-99): HTTP status code and
body as a function of the request method and of what the POST path did.
OPTIONS and GET return 200 before the method guard; any method other than
GET/POST/OPTIONS hits the 405 branch; every POST path — missing url,
provider loop (success or failure), or the global catch — responds 200. -/
def handler (method : String) (post : PostOutcome) : Nat × RespBody :=
  if method = "OPTIONS" then (200, .empty)
  else if method = "GET" then (200, .health)
  else if method ≠ "POST" then (405, .json (errorResult "Method not allowed"))
  else
    match post with
    | .missingUrl => (200, .json (errorResult "URL diperlukan"))
    | .chain ps => (200, .json (chainResponse ps))
    | .threw m =>
      (200, .json (errorResult ("Server Error: " ++
        (if m ≠ "" then m else "Unknown error"))))

/- ===== Size probe (`src/api/filesize.js`) ===== -/

/-- Observable part of the HEAD response (filesize.js lines 21-32):
`response.ok` plus the two headers the handler reads.  A header absent from
the response is `none`. -/
structure HeadResp where
  ok : Bool
  contentLength : Option String
  contentType : Option String
deriving DecidableEq, Repr

/-- Observable part of the ranged GET response (filesize.js lines 40-59). -/
structure RangeResp where
  ok : Bool
  contentRange : Option String
  contentLength : Option String
deriving DecidableEq, Repr

/-- Characters after the last `'/'` of the list, when a `'/'` occurs. -/
def digitsAfterLastSlash : List Char → Option (List Char)
  | [] => none
  | c :: cs =>
    match digitsAfterLastSlash cs with
    | some d => some d
    | none => if c = '/' then some cs else none

/-- The capture of the regex `/\/(\d+)$/` applied to a `content-range`
header value (filesize.js line 54): the digit run after the final slash,
provided it is non-empty and runs to the end of the string. -/
def contentRangeTotal (s : String) : Option String :=
  match digitsAfterLastSlash s.toList with
  | none => none
  | some rest =>
    if rest.isEmpty then none
    else if rest.all Char.isDigit then some (String.mk rest) else none

/-- `parseInt(s, 10)` restricted to the shapes that occur here: the longest
leading decimal-digit run, `none` for `NaN` when there is no leading digit. -/
def parseIntDec (s : String) : Option Nat :=
  let ds := s.toList.takeWhile Char.isDigit
  if ds.isEmpty then none
  else some (ds.foldl (fun a c => a * 10 + (c.toNat - 48)) 0)

/-- Was the ranged-GET fallback entered (filesize.js line 35):
`if (!size && response.ok)` on the HEAD outcome. -/
def rangeIssued (head : HeadResp) : Bool :=
  !strTruthy head.contentLength && head.ok

/-- The value of the `size` variable after the fallback block
(filesize.js lines 31-63).  `range = none` models the ranged GET itself
throwing (its `catch` only logs, leaving `size` unchanged); inside a
received response, a parsed `content-range` total wins, then that
response's own `content-length`. -/
def probeSize (head : HeadResp) (range : Option RangeResp) : Option String :=
  let size := head.contentLength
  if !strTruthy size && head.ok then
    match range with
    | none => size
    | some r =>
      if r.ok then
        let size1 :=
          match r.contentRange with
          | some cr =>
            if cr ≠ "" then
              match contentRangeTotal cr with
              | some digits => some digits
              | none => size
            else size
          | none => size
        if !strTruthy size1 then r.contentLength else size1
      else size
  else size

/-- The `size` field of the probe's JSON response (filesize.js line 66):
`size ? parseInt(size, 10) : null` (a `NaN` from `parseInt` serialises to
JSON `null`, so it is also `none` here). -/
def probeSizeField (head : HeadResp) (range : Option RangeResp) : Option Nat :=
  match probeSize head range with
  | some s => if s ≠ "" then parseIntDec s else none
  | none => none

/-- The unit table of `formatBytes` (filesize.js line 81); an index past the
end reads `undefined` in JS. -/
def sizeUnits : List String := ["Bytes", "KB", "MB", "GB", "TB"]

/-- Rounding division `round (a / b)` on exact naturals, half rounded up:
the effect of `toFixed` on the exact values arising in the claims. -/
def roundDiv (a b : Nat) : Nat :=
  (2 * a + b) / (2 * b)

/-- The arithmetic tail of `formatBytes` for a positive byte count `n` with
magnitude `i`: `parseFloat((bytes / Math.pow(k, i)).toFixed(dm)) + ' ' + sizes[i]`
with `dm = 2`, carried out in exact arithmetic (the source computes with
IEEE doubles; on the integer inputs of the claims both agree).  `parseFloat`
of a `toFixed(2)` string drops trailing fractional zeros. -/
def formatScaled (n i : Nat) : String :=
  let scaled := roundDiv (n * 100) (1024 ^ i)
  let whole := scaled / 100
  let frac := scaled % 100
  let numStr :=
    if frac = 0 then toString whole
    else if frac % 10 = 0 then toString whole ++ "." ++ toString (frac / 10)
    else if frac < 10 then toString whole ++ ".0" ++ toString frac
    else toString whole ++ "." ++ toString frac
  numStr ++ " " ++ sizeUnits.getD i "undefined"

/-- `formatBytes` (filesize.js lines 76-84) on a numeric (or `null`)
argument.  The source's first guard `if (!bytes) return 'Unknown'` is taken
by `null` and by `0`, so the following `if (bytes === 0) return '0 Bytes'`
branch is unreachable; it is reproduced here verbatim.  The magnitude
`i = Math.floor(Math.log(bytes) / Math.log(1024))` is the base-1024
logarithm, `Nat.log 1024` on positive integers. -/
def formatBytes (bytes : Option Nat) : String :=
  if !natTruthy bytes then "Unknown"
  else if bytes = some 0 then "0 Bytes"
  else formatScaled (bytes.getD 0) (Nat.log 1024 (bytes.getD 0))

/- ===== Predicates and demo values used across the verification ===== -/

/-- The outcome is not accepted by the loop: it throws, declines, or
returns a result failing the acceptance test. -/
def notAccepted (p : String × ProviderOutcome) : Bool :=
  match p.2 with
  | .returns (some r) => !statusAccepted r
  | _ => true

/-- The outcome is a returned decline or a returned non-accepted result —
the "every provider returns null or an error result" situation (no thrown
exception, no success). -/
def returnsOnlyFailure (p : String × ProviderOutcome) : Bool :=
  match p.2 with
  | .throws _ => false
  | .returns none => true
  | .returns (some r) => !statusAccepted r

/-- A concrete TikWM `data` object used to instantiate theorems. -/
def demoVideo : TikwmVideo :=
  ⟨some "http://hd", some "http://sd", none, some "http://wm", some 111,
    some 222, none, none, some "vid1", some "http://cover", none,
    some "Title", some "Nick"⟩

/-- The tunnel result `providerTikwm` produces from `demoVideo`. -/
def demoTunnel : JsResult :=
  ⟨some "tunnel", none, some "http://hd", some "tiktok_vid1.mp4",
    some "Title", some "Nick", some "http://cover",
    some (tikwmVariants demoVideo)⟩

/- ===== Helper lemmas ===== -/

/-- Appending to a non-empty string keeps it non-empty. -/
theorem append_left_ne_empty (s t : String) (h : s ≠ "") : s ++ t ≠ "" := by
  intro hc
  apply h
  have hl := congrArg String.length hc
  rw [String.length_append] at hl
  have h0 : ("" : String).length = 0 := rfl
  rw [h0] at hl
  have hs : s.length = 0 := by omega
  cases s with
  | mk ds =>
    cases ds with
    | nil => rfl
    | cons c cs => simp [String.length] at hs

/-- A truthy outcome of the JS `||` chain is a non-empty string. -/
theorem jsOrS_ne_empty {a b : Option String} {u : String}
    (h : jsOrS a b = some u) : u ≠ "" := by
  unfold jsOrS at h
  split at h
  · next ht =>
    rw [h] at ht
    simpa [strTruthy] using ht
  · split at h
    · next ht =>
      rw [h] at ht
      simpa [strTruthy] using ht
    · exact absurd h (by simp)

/- ===== C5 ===== -/

/-- C5: platform detection always yields one of the six platform names, is
exactly the spec's first-matching-rule scan over the fixed priority order
tiktok, youtube, instagram, twitter, facebook, and yields "unknown" when no
pattern of any rule matches; being a total Lean function it never throws. -/
theorem detectPlatform_priority_and_fallback (url : String) :
    detectPlatform url = detectPlatformSpec url ∧
    detectPlatform url ∈
      ["tiktok", "youtube", "instagram", "twitter", "facebook", "unknown"] ∧
    (platformRules.all (fun rule => rule.1.all (fun pat => !lowerContains url pat)) = true →
      detectPlatform url = "unknown") := by
  cases h1 : lowerContains url "tiktok.com" <;>
  cases h2 : lowerContains url "youtu.be" <;>
  cases h3 : lowerContains url "youtube" <;>
  cases h4 : lowerContains url "instagram.com" <;>
  cases h5 : lowerContains url "twitter.com" <;>
  cases h6 : lowerContains url "x.com" <;>
  cases h7 : lowerContains url "facebook.com" <;>
  cases h8 : lowerContains url "fb.watch" <;>
    simp [detectPlatform, detectPlatformSpec, platformRules, List.find?,
      h1, h2, h3, h4, h5, h6, h7, h8]

/-- Witness for C5 at a URL matching no rule. -/
theorem detectPlatform_priority_and_fallback_witness :
    detectPlatform "https://nomatch.example/path" = "unknown" ∧
    detectPlatform "https://nomatch.example/path" =
      detectPlatformSpec "https://nomatch.example/path" :=
  ⟨(detectPlatform_priority_and_fallback "https://nomatch.example/path").2.2 (by decide),
   (detectPlatform_priority_and_fallback "https://nomatch.example/path").1⟩

/- ===== C9 ===== -/

/-- C9: the timed fetch wrapper is total toward its caller: a raised error
(network failure or timeout abort) always becomes `none`, a completed fetch
always becomes `some` of the body text, and the result is always one of the
two — the `Option` codomain carries no exception to the provider adapters. -/
theorem fetchUrl_never_throws (o : FetchOutcome) :
    (∀ e, fetchAttempt o = .error e → fetchUrl o = none) ∧
    (∀ b, fetchAttempt o = .ok b → fetchUrl o = some b) ∧
    (fetchUrl o = none ∨ ∃ b, fetchUrl o = some b) := by
  cases o <;> simp [fetchUrl, fetchAttempt]

/-- Witness for C9: a timeout abort is absorbed into `null`. -/
theorem fetchUrl_never_throws_witness :
    fetchUrl (FetchOutcome.failure "The operation was aborted") = none :=
  (fetchUrl_never_throws (FetchOutcome.failure "The operation was aborted")).1
    "The operation was aborted" rfl

/- ===== C4 ===== -/

/-- C4: concrete evaluation of `formatBytes`.  Upstream of the claim, the
source's `!bytes` guard catches `0` before the dedicated `bytes === 0`
branch can run, so `formatBytes 0` is `"Unknown"` — not the claimed
`"0 Bytes"`; `null` maps to `"Unknown"`, `1024` to `"1 KB"`, `1048576` to
`"1 MB"`, and `1536` to `"1.5 KB"` (unit index `Nat.log 1024`, two-decimal
policy with trailing zeros dropped by `parseFloat`). -/
theorem formatBytes_values :
    formatBytes none = "Unknown" ∧
    formatBytes (some 0) = "Unknown" ∧
    formatBytes (some 1024) = "1 KB" ∧
    formatBytes (some 1048576) = "1 MB" ∧
    formatBytes (some 1536) = "1.5 KB" := by
  have l1 : Nat.log 1024 1024 = 1 := by
    have h := @Nat.log_pow 1024 (by norm_num) 1
    simpa using h
  have l2 : Nat.log 1024 1048576 = 2 := by
    have h := @Nat.log_pow 1024 (by norm_num) 2
    simpa using h
  have l3 : Nat.log 1024 1536 = 1 :=
    Nat.log_eq_of_pow_le_of_lt_pow (by norm_num) (by norm_num)
  refine ⟨rfl, rfl, ?_, ?_, ?_⟩
  · simp only [formatBytes, Option.getD_some]
    rw [l1]; decide
  · simp only [formatBytes, Option.getD_some]
    rw [l2]; decide
  · simp only [formatBytes, Option.getD_some]
    rw [l3]; decide

/- ===== C7 ===== -/

/-- C7: when the HEAD response succeeded without a content-length header the
ranged GET fallback is entered; a content-range of `bytes 0-0/500000` makes
the reported size the integer 500000 (the number after the final slash),
and an absent content-range falls back to that response's own
content-length header. -/
theorem probeSize_range_fallback (head : HeadResp) (r : RangeResp) :
    head.ok = true → head.contentLength = none →
    rangeIssued head = true ∧
    (r.ok = true → r.contentRange = some "bytes 0-0/500000" →
      probeSize head (some r) = some "500000" ∧
      probeSizeField head (some r) = some 500000) ∧
    (r.ok = true → r.contentRange = none →
      probeSize head (some r) = r.contentLength) := by
  intro hok hcl
  have hct : contentRangeTotal "bytes 0-0/500000" = some "500000" := by decide
  have hpi : parseIntDec "500000" = some 500000 := by decide
  refine ⟨?_, ?_, ?_⟩
  · simp [rangeIssued, hcl, strTruthy, hok]
  · intro hrok hcr
    have e1 : probeSize head (some r) = some "500000" := by
      simp [probeSize, hcl, hok, hrok, hcr, hct, strTruthy]
    refine ⟨e1, ?_⟩
    simp [probeSizeField, e1, hpi]
  · intro hrok hcr
    simp [probeSize, hcl, hok, hrok, hcr, strTruthy]

/-- Witness for C7 at a concrete HEAD/ranged-GET exchange. -/
theorem probeSize_range_fallback_witness :
    rangeIssued ⟨true, none, some "video/mp4"⟩ = true ∧
    probeSizeField ⟨true, none, some "video/mp4"⟩
      (some ⟨true, some "bytes 0-0/500000", none⟩) = some 500000 := by
  have h := probeSize_range_fallback ⟨true, none, some "video/mp4"⟩
    ⟨true, some "bytes 0-0/500000", none⟩ rfl rfl
  exact ⟨h.1, (h.2.1 rfl rfl).2⟩

/- ===== C3 ===== -/

/-- C3: the TikWM adapter retries via GET exactly when the POST attempt
parsed to nothing or to a payload whose code field is defined and non-zero;
when neither attempt parses it returns the generic "TikWM no response"
error; and whenever the final payload's code field is missing or non-zero
it returns an error carrying the upstream message (or the default
"Unknown error"). -/
theorem tikwm_retry_and_error_paths (post tikGet : Option TikwmPayload) :
    (tikwmRetry post = true ↔
      (post = none ∨ ∃ d, post = some d ∧ d.code ≠ none ∧ d.code ≠ some 0)) ∧
    (post = none → tikGet = none →
      providerTikwm "tiktok" post tikGet = .ok (some (errorResult "TikWM no response"))) ∧
    (∀ d, tikwmData post tikGet = some d → d.code ≠ some 0 →
      providerTikwm "tiktok" post tikGet =
        .ok (some (errorResult ("TikWM: " ++ strOrDefault d.msg "Unknown error")))) := by
  refine ⟨?_, ?_, ?_⟩
  · rcases post with _ | d
    · simp [tikwmRetry]
    · rcases hc : d.code with _ | c
      · simp [tikwmRetry, hc]
      · simp [tikwmRetry, hc]
  · intro h1 h2
    subst h1; subst h2
    rfl
  · intro d hd hcode
    simp [providerTikwm, hd, hcode]

/-- Witness for C3: no parse on either attempt gives the generic error, and
a parsed payload with non-zero code gives the upstream-message error. -/
theorem tikwm_retry_and_error_paths_witness :
    providerTikwm "tiktok" none none = .ok (some (errorResult "TikWM no response")) ∧
    providerTikwm "tiktok" (some ⟨some 5, some "rate limit", none⟩) none =
      .ok (some (errorResult "TikWM: rate limit")) ∧
    tikwmRetry (some ⟨some 5, some "rate limit", none⟩) = true := by
  refine ⟨?_, ?_, ?_⟩
  · exact (tikwm_retry_and_error_paths none none).2.1 rfl rfl
  · exact (tikwm_retry_and_error_paths (some ⟨some 5, some "rate limit", none⟩) none).2.2
      ⟨some 5, some "rate limit", none⟩ rfl (by decide)
  · exact (tikwm_retry_and_error_paths (some ⟨some 5, some "rate limit", none⟩) none).1.mpr
      (Or.inr ⟨⟨some 5, some "rate limit", none⟩, rfl, by decide, by decide⟩)

/- ===== C6 ===== -/

/-- A member of one push block comes from a truthy slot URL. -/
theorem mem_optVariant {o : Option String} {t nm : String} {sz : Option Nat}
    {mv : MediaVariant} (h : mv ∈ optVariant o t nm sz) :
    ∃ u, o = some u ∧ mv = ⟨t, nm, u, sz⟩ := by
  rcases o with _ | u
  · simp [optVariant] at h
  · simp [optVariant] at h
    exact ⟨u, rfl, h⟩

/-- The variant types always appear as a subsequence of the fixed order. -/
theorem buildVariants_types (hdUrl sdUrl audioUrl wmUrl : Option String)
    (s1 s2 s3 s4 : Option Nat) :
    ((buildVariants hdUrl sdUrl audioUrl wmUrl s1 s2 s3 s4).map MediaVariant.type).Sublist
      ["video-hd", "video-sd", "audio", "video-watermark"] := by
  rcases hdUrl with _ | hu <;> rcases sdUrl with _ | su <;>
  rcases audioUrl with _ | au <;> rcases wmUrl with _ | wu <;>
    simp [buildVariants, optVariant]

/-- Every pushed variant carries the (non-empty) URL of a truthy slot. -/
theorem buildVariants_urls (hdUrl sdUrl audioUrl wmUrl : Option String)
    (s1 s2 s3 s4 : Option Nat)
    (h1 : ∀ u, hdUrl = some u → u ≠ "") (h2 : ∀ u, sdUrl = some u → u ≠ "")
    (h3 : ∀ u, audioUrl = some u → u ≠ "") (h4 : ∀ u, wmUrl = some u → u ≠ "") :
    ∀ mv ∈ buildVariants hdUrl sdUrl audioUrl wmUrl s1 s2 s3 s4, mv.url ≠ "" := by
  intro mv hmv
  simp only [buildVariants, List.mem_append] at hmv
  rcases hmv with ((hA | hB) | hC) | hD
  · rcases mem_optVariant hA with ⟨u, ho, rfl⟩
    exact h1 u ho
  · rcases mem_optVariant hB with ⟨u, ho, rfl⟩
    exact h2 u ho
  · rcases mem_optVariant hC with ⟨u, ho, rfl⟩
    exact h3 u ho
  · rcases mem_optVariant hD with ⟨u, ho, rfl⟩
    exact h4 u ho

/-- C6: for every TikWM payload, the variant list keeps the fixed order —
the list of variant types is a subsequence of
hd, sd, audio, watermark — and every entry present resolved a non-empty
URL, so the order holds for whichever subset of the four slots is pushed. -/
theorem tikwm_variants_order (v : TikwmVideo) :
    ((tikwmVariants v).map MediaVariant.type).Sublist
      ["video-hd", "video-sd", "audio", "video-watermark"] ∧
    (∀ mv ∈ tikwmVariants v, mv.url ≠ "") := by
  refine ⟨buildVariants_types _ _ _ _ _ _ _ _, ?_⟩
  exact buildVariants_urls _ _ _ _ _ _ _ _
    (fun u h => jsOrS_ne_empty h) (fun u h => jsOrS_ne_empty h)
    (fun u h => jsOrS_ne_empty h) (fun u h => jsOrS_ne_empty h)

/-- Witness for C6 at a concrete payload (hdplay and wmplay set), checking
the membership hypothesis on the HD entry. -/
theorem tikwm_variants_order_witness :
    ((tikwmVariants ⟨some "http://hd", none, none, some "http://wm",
        some 111, none, some 5, none, some "vid1", none, none, none, none⟩).map
          MediaVariant.type).Sublist
      ["video-hd", "video-sd", "audio", "video-watermark"] ∧
    (⟨"video-hd", "HD NO WATERMARK (MP4)", "http://hd", some 111⟩ :
        MediaVariant).url ≠ "" := by
  have h := tikwm_variants_order ⟨some "http://hd", none, none, some "http://wm",
    some 111, none, some 5, none, some "vid1", none, none, none, none⟩
  exact ⟨h.1, h.2 ⟨"video-hd", "HD NO WATERMARK (MP4)", "http://hd", some 111⟩ (by decide)⟩

/- ===== C10 ===== -/

/-- C10: a Snaptik payload whose status is "success" but which populates
neither video-URL field yields a success result with status "tunnel" and an
empty url; and every result providerSnaptik returns has status "tunnel" and
omits the variants, author and thumb fields of the success data model. -/
theorem snaptik_empty_url_and_sparse_fields :
    providerSnaptik "tiktok" (some (some ⟨some "success", none, none, none⟩)) =
      some ⟨some "tunnel", none, some "", some "tiktok_snaptik.mp4",
        some "TikTok Video", none, none, none⟩ ∧
    (∀ platform resp r, providerSnaptik platform resp = some r →
      r.variants = none ∧ r.author = none ∧ r.thumb = none ∧
        r.status = some "tunnel") := by
  constructor
  · rfl
  · intro platform resp r h
    unfold providerSnaptik at h
    split at h
    · simp at h
    · split at h
      · simp at h
      · simp at h
      · split at h
        · simp at h
        · simp only [Option.some.injEq] at h
          subst h
          exact ⟨rfl, rfl, rfl, rfl⟩

/-- Witness for C10's universally quantified part at a populated payload. -/
theorem snaptik_sparse_fields_witness :
    providerSnaptik "tiktok" (some (some ⟨some "success", some "http://v", none, none⟩)) =
      some ⟨some "tunnel", none, some "http://v", some "tiktok_snaptik.mp4",
        some "TikTok Video", none, none, none⟩ ∧
    (⟨some "tunnel", none, some "http://v", some "tiktok_snaptik.mp4",
        some "TikTok Video", none, none, none⟩ : JsResult).variants = none ∧
    (⟨some "tunnel", none, some "http://v", some "tiktok_snaptik.mp4",
        some "TikTok Video", none, none, none⟩ : JsResult).author = none ∧
    (⟨some "tunnel", none, some "http://v", some "tiktok_snaptik.mp4",
        some "TikTok Video", none, none, none⟩ : JsResult).thumb = none := by
  have h := (snaptik_empty_url_and_sparse_fields).2 "tiktok"
    (some (some ⟨some "success", some "http://v", none, none⟩))
    ⟨some "tunnel", none, some "http://v", some "tiktok_snaptik.mp4",
      some "TikTok Video", none, none, none⟩ rfl
  exact ⟨rfl, h.1, h.2.1, h.2.2.1⟩

/- ===== C1 ===== -/

/-- Every result the TikWM adapter actually returns carries status "error"
or status "tunnel". -/
theorem tikwm_result_status {post tikGet : Option TikwmPayload} {r : JsResult}
    (h : providerTikwm "tiktok" post tikGet = .ok (some r)) :
    r.status = some "error" ∨ r.status = some "tunnel" := by
  unfold providerTikwm at h
  rw [if_neg (by simp)] at h
  split at h
  · simp only [Except.ok.injEq, Option.some.injEq] at h
    subst h; left; rfl
  · split at h
    · simp only [Except.ok.injEq, Option.some.injEq] at h
      subst h; left; rfl
    · split at h
      · exact absurd h (by simp)
      · dsimp only at h
        split at h
        · simp only [Except.ok.injEq, Option.some.injEq] at h
          subst h; right; rfl
        · simp only [Except.ok.injEq, Option.some.injEq] at h
          subst h; left; rfl

/-- C1: when the first provider (TikWM) returns a result whose status field
is present and is not "error", the loop accepts it at once: only TikWM is
invoked (Snaptik never runs), the accepted result is the loop's final
result, and it is the final response payload — whatever the second
provider's outcome would have been. -/
theorem chain_short_circuit (post tikGet : Option TikwmPayload) (r : JsResult)
    (snap : ProviderOutcome) :
    providerTikwm "tiktok" post tikGet = .ok (some r) →
    r.status.isSome → r.status ≠ some "error" →
    (runChain [("providerTikwm", ProviderOutcome.returns (some r)),
               ("providerSnaptik", snap)]).invoked = ["providerTikwm"] ∧
    (runChain [("providerTikwm", ProviderOutcome.returns (some r)),
               ("providerSnaptik", snap)]).finalResult = some r ∧
    chainResponse [("providerTikwm", ProviderOutcome.returns (some r)),
                   ("providerSnaptik", snap)] = r := by
  intro hres hsome herr
  have hst : r.status = some "tunnel" := by
    rcases tikwm_result_status hres with h | h
    · exact absurd h herr
    · exact h
  have hacc : statusAccepted r = true := by
    simp [statusAccepted, hst]
  have hrun : runChain [("providerTikwm", ProviderOutcome.returns (some r)),
      ("providerSnaptik", snap)] =
      ⟨some r, "", ["Trying provider: providerTikwm", "Success with providerTikwm"],
        ["providerTikwm"]⟩ := by
    simp [runChain, chainStep, hacc]
  refine ⟨?_, ?_, ?_⟩
  · rw [hrun]
  · rw [hrun]
  · simp [chainResponse, hrun]

/-- Witness for C1 at a concrete successful TikWM exchange. -/
theorem chain_short_circuit_witness :
    (runChain [("providerTikwm", ProviderOutcome.returns (some demoTunnel)),
               ("providerSnaptik", ProviderOutcome.returns none)]).invoked
      = ["providerTikwm"] ∧
    (runChain [("providerTikwm", ProviderOutcome.returns (some demoTunnel)),
               ("providerSnaptik", ProviderOutcome.returns none)]).finalResult
      = some demoTunnel ∧
    chainResponse [("providerTikwm", ProviderOutcome.returns (some demoTunnel)),
                   ("providerSnaptik", ProviderOutcome.returns none)]
      = demoTunnel :=
  chain_short_circuit (some ⟨some 0, none, some demoVideo⟩) none demoTunnel
    (ProviderOutcome.returns none) rfl (by decide) (by decide)

/- ===== C2 ===== -/

/-- Over outcomes none of which is accepted, the loop never sets a final
result and its `lastError` is the fold of the recorded error messages. -/
theorem chain_fold_no_success (ps : List (String × ProviderOutcome)) :
    ∀ s : ChainState, ps.all notAccepted = true → s.finalResult = none →
    (ps.foldl chainStep s).finalResult = none ∧
    (ps.foldl chainStep s).lastError =
      ps.foldl (fun acc p => (recordedError p.2).getD acc) s.lastError := by
  induction ps with
  | nil => intro s _ h; exact ⟨h, rfl⟩
  | cons p ps ih =>
    intro s hall h
    simp only [List.all_cons, Bool.and_eq_true] at hall
    have hstep : (chainStep s p).finalResult = none ∧
        (chainStep s p).lastError = (recordedError p.2).getD s.lastError := by
      rcases p with ⟨nm, o⟩
      rcases o with m | ro
      · simp [chainStep, recordedError, h]
      · rcases ro with _ | r
        · simp [chainStep, recordedError, h]
        · have hna : statusAccepted r = false := by
            simpa [notAccepted] using hall.1
          rcases ht : r.text with _ | t
          · simp [chainStep, recordedError, h, hna, ht]
          · by_cases ht2 : t = "" <;> simp [chainStep, recordedError, h, hna, ht, ht2]
    simp only [List.foldl_cons]
    have hrec := ih (chainStep s p) hall.2 hstep.1
    rw [hstep.2] at hrec
    exact hrec

/-- The overwrite fold of recorded errors computes the last recorded one. -/
theorem fold_recorded_getLast (ps : List (String × ProviderOutcome)) :
    ∀ a : String,
      ps.foldl (fun acc p => (recordedError p.2).getD acc) a =
        ((ps.filterMap fun p => recordedError p.2).getLast?).getD a := by
  induction ps with
  | nil => intro a; rfl
  | cons p ps ih =>
    intro a
    simp only [List.foldl_cons, List.filterMap_cons]
    rcases hrec : recordedError p.2 with _ | e
    · simp only [Option.getD_none]
      exact ih a
    · simp only [Option.getD_some]
      rw [ih e, List.getLast?_cons]
      rcases (ps.filterMap fun p => recordedError p.2).getLast? with _ | x
      · rfl
      · rfl

/-- When no outcome throws, a recorded error message is never empty (only a
truthy `text` is recorded). -/
theorem recorded_nonempty {ps : List (String × ProviderOutcome)}
    (hall : ps.all returnsOnlyFailure = true) {e : String}
    (h : lastRecordedError ps = some e) : e ≠ "" := by
  have hmem : e ∈ ps.filterMap fun p => recordedError p.2 := by
    unfold lastRecordedError at h
    rcases List.getLast?_eq_some_iff.mp h with ⟨ys, hys⟩
    rw [hys]
    simp
  rcases List.mem_filterMap.mp hmem with ⟨p, hp, hrec⟩
  have hro := (List.all_eq_true.mp hall) p hp
  rcases p with ⟨nm, o⟩
  rcases o with m | ro
  · simp [returnsOnlyFailure] at hro
  · rcases ro with _ | r
    · simp [recordedError] at hrec
    · simp only [returnsOnlyFailure, Bool.not_eq_true'] at hro
      simp only [recordedError, hro, Bool.false_eq_true, if_false] at hrec
      rcases ht : r.text with _ | t
      · rw [ht] at hrec; simp at hrec
      · rw [ht] at hrec
        by_cases ht2 : t = ""
        · simp [ht2] at hrec
        · simp only [ht2, ne_eq, not_false_eq_true, if_true, Option.some.injEq] at hrec
          subst hrec
          exact ht2

/-- C2: if every provider returns null or a non-accepted (error) result,
the final payload has status "error" and its text embeds the most recently
recorded provider error message in the failure template, or the default
server-busy/timeout message when none was recorded. -/
theorem chain_all_fail (ps : List (String × ProviderOutcome))
    (hall : ps.all returnsOnlyFailure = true) :
    (runChain ps).finalResult = none ∧
    (chainResponse ps).status = some "error" ∧
    (∀ e, lastRecordedError ps = some e →
      (chainResponse ps).text = some ("Gagal memproses link. " ++ e ++ ".")) ∧
    (lastRecordedError ps = none →
      (chainResponse ps).text = some "Gagal memproses link. Server sibuk atau timeout.") := by
  have hna : ps.all notAccepted = true := by
    rw [List.all_eq_true] at hall ⊢
    intro p hp
    have h := hall p hp
    rcases p with ⟨nm, o⟩
    rcases o with m | ro
    · simp [returnsOnlyFailure] at h
    · rcases ro with _ | r
      · simp [notAccepted]
      · simpa [returnsOnlyFailure, notAccepted] using h
  have hfold := chain_fold_no_success ps ⟨none, "", [], []⟩ hna rfl
  have hlast := fold_recorded_getLast ps ""
  refine ⟨hfold.1, ?_, ?_, ?_⟩
  · simp only [chainResponse, runChain] at hfold ⊢
    rw [hfold.1]
    rfl
  · intro e he
    have hne : e ≠ "" := recorded_nonempty hall he
    unfold lastRecordedError at he
    simp only [chainResponse, runChain] at hfold ⊢
    rw [hfold.1, hfold.2, hlast, he, Option.getD_some, if_pos hne]
    rfl
  · intro he
    unfold lastRecordedError at he
    simp only [chainResponse, runChain] at hfold ⊢
    rw [hfold.1, hfold.2, hlast, he, Option.getD_none]
    rfl

/-- Witness for C2: TikWM errors, Snaptik declines, and the last recorded
error message lands in the failure envelope. -/
theorem chain_all_fail_witness :
    (chainResponse [("providerTikwm", ProviderOutcome.returns
        (some (errorResult "TikWM no response"))),
      ("providerSnaptik", ProviderOutcome.returns none)]).status = some "error" ∧
    (chainResponse [("providerTikwm", ProviderOutcome.returns
        (some (errorResult "TikWM no response"))),
      ("providerSnaptik", ProviderOutcome.returns none)]).text =
      some "Gagal memproses link. TikWM no response." := by
  have h := chain_all_fail [("providerTikwm", ProviderOutcome.returns
      (some (errorResult "TikWM no response"))),
    ("providerSnaptik", ProviderOutcome.returns none)] (by decide)
  exact ⟨h.2.1, h.2.2.1 "TikWM no response" (by decide)⟩

/- ===== C8 ===== -/

/-- C8: the resolve-media handler answers 200 exactly for the methods GET,
POST and OPTIONS (any other method gets 405, and no other status code
exists), and every POST failure path — missing url, provider-chain failure,
or an unexpected internal exception — still answers 200 with a body
carrying status "error" and a non-empty text field. -/
theorem handler_http_contract (method : String) (post : PostOutcome) :
    ((method = "GET" ∨ method = "POST" ∨ method = "OPTIONS") ↔
      (handler method post).1 = 200) ∧
    ((handler method post).1 = 200 ∨ (handler method post).1 = 405) ∧
    errorBody (handler "POST" PostOutcome.missingUrl).2 = true ∧
    (∀ m, errorBody (handler "POST" (PostOutcome.threw m)).2 = true) ∧
    (∀ ps, (runChain ps).finalResult = none →
      errorBody (handler "POST" (PostOutcome.chain ps)).2 = true) := by
  refine ⟨?_, ?_, rfl, ?_, ?_⟩
  · by_cases h1 : method = "OPTIONS" <;> by_cases h2 : method = "GET" <;>
    by_cases h3 : method = "POST" <;>
      cases post <;> simp [handler, h1, h2, h3]
  · by_cases h1 : method = "OPTIONS" <;> by_cases h2 : method = "GET" <;>
    by_cases h3 : method = "POST" <;>
      cases post <;> simp [handler, h1, h2, h3]
  · intro m
    by_cases hm : m = ""
    · subst hm
      decide
    · have hne : ("Server Error: " ++ if m ≠ "" then m else "Unknown error") ≠ "" :=
        append_left_ne_empty "Server Error: " _ (by decide)
      simp only [ne_eq, ite_not] at hne
      simp [handler, errorBody, errorResult, hne]
  · intro ps hps
    have hne : ("Gagal memproses link. " ++
        (if (runChain ps).lastError ≠ "" then (runChain ps).lastError
         else "Server sibuk atau timeout") ++ ".") ≠ "" := by
      apply append_left_ne_empty
      apply append_left_ne_empty
      decide
    simp only [ne_eq, ite_not] at hne
    simp [handler, errorBody, chainResponse, hps, errorResult, hne]

/-- Witness for C8: a failed chain still gets a 200 error body, GET gets
200, and an unsupported method gets 405. -/
theorem handler_http_contract_witness :
    errorBody (handler "POST" (PostOutcome.chain [])).2 = true ∧
    (handler "GET" (PostOutcome.chain [])).1 = 200 ∧
    (handler "DELETE" (PostOutcome.chain [])).1 = 405 :=
  ⟨(handler_http_contract "POST" (PostOutcome.chain [])).2.2.2.2 [] rfl,
   (handler_http_contract "GET" (PostOutcome.chain [])).1.mp (Or.inl rfl),
   by decide⟩

end Reloader
